import Mathlib

/-!
# Verification of the PersonalVoiceBot backend (`src/backend/main.py`)

Shallow embedding of the session store, the persona engine, the
transcription routine and the `chat_voice` request handler of
`src/backend/main.py`, together with theorems settling the frozen claims
about them.

External collaborators (the speech-recognition service, the remote
reasoning service, the text-to-speech service, the JSON decoder of the
standard library, the file system and the random UUID source) are
represented by oracle parameters carrying their outcome for the one
execution being modelled; the Python code around them is translated
directly.
-/

set_option autoImplicit false

namespace VoiceBot

/-- Role tag of a history entry (`"role": "user"` / `"role": "model"` in
`SessionManager.update_history`). -/
inductive Role where
  | user
  | model
deriving DecidableEq, Repr

/-- One history entry.  The source stores
`{"role": r, "parts": [{"text": t}]}` with a single text part; the entry is
therefore determined by its role and its text (the read side accesses
exactly `turn["role"]` and `turn["parts"][0]["text"]`). -/
structure Turn where
  role : Role
  text : String
deriving DecidableEq, Repr

/-- One session, as created by `SessionManager.get_session`:
`{"history": [], "user_profile": {"name": None, "email": None},
"created_at": str(uuid.uuid4())}`.  The profile dict is flattened into the
two optional fields. -/
structure Session where
  history : List Turn
  name : Option String
  email : Option String
  created_at : String
deriving DecidableEq, Repr

/-- The fresh session installed for an unseen id; `fresh` is the
`str(uuid.uuid4())` token supplied by the environment. -/
def emptySession (fresh : String) : Session :=
  { history := [], name := none, email := none, created_at := fresh }

/-- Model of `SessionManager.sessions : Dict[str, Dict]` as an association
list with (invariantly) unique keys: entries are only added by
`get_session` when the key is absent. -/
abbrev Store := List (String × Session)

/-- Python `session_id in self.sessions` / `self.sessions[session_id]`
read access. -/
def Store.find? (st : Store) (id : String) : Option Session :=
  match st with
  | [] => none
  | (k, v) :: rest => if k = id then some v else Store.find? rest id

/-- Writing back the (in Python, aliased and mutated in place) session
object under an existing key. -/
def Store.set (st : Store) (id : String) (s : Session) : Store :=
  match st with
  | [] => []
  | (k, v) :: rest => if k = id then (k, s) :: rest else (k, v) :: Store.set rest id s

/-- Model of `SessionManager.get_session`: return the session registered under
`id`, installing a fresh empty one first when the id is unseen.  Returns
the session together with the (possibly extended) store. -/
def get_session (fresh : String) (id : String) (st : Store) : Session × Store :=
  match st.find? id with
  | some s => (s, st)
  | none => (emptySession fresh, st ++ [(id, emptySession fresh)])

/-- Model of `SessionManager.update_history`: append one user turn and one model
turn, in that order, to the session's history (creating the session when
absent, via `get_session`). -/
def update_history (fresh : String) (id : String) (user_text model_text : String)
    (st : Store) : Store :=
  let p := get_session fresh id st
  Store.set p.2 id
    { p.1 with history := p.1.history ++ [⟨Role.user, user_text⟩, ⟨Role.model, model_text⟩] }

/-- Python truthiness of an `Optional[str]`: `None` and `""` are falsy.
This is the test performed by `if name:` / `if email:` in
`update_profile` and by `if user_name or user_email:` in `chat_voice`. -/
def truthy : Option String → Bool
  | none => false
  | some s => s ≠ ""

/-- Model of `SessionManager.update_profile`: set each profile field only when the
supplied value is truthy; an omitted or empty field leaves the stored
value untouched. -/
def update_profile (fresh : String) (id : String)
    (name email : Option String) (st : Store) : Store :=
  let p := get_session fresh id st
  Store.set p.2 id
    { p.1 with
      name := if truthy name then name else p.1.name
      email := if truthy email then email else p.1.email }

/-- Model of `SessionManager.clear`: delete the entry when present; silently do
nothing otherwise (`if session_id in self.sessions: del ...`). -/
def clear (id : String) (st : Store) : Store :=
  st.filter (fun p => p.1 ≠ id)

/-! ### Store lemmas -/

theorem find?_set_self (st : Store) (id : String) (s : Session) :
    (st.find? id).isSome = true → (st.set id s).find? id = some s := by
  induction st with
  | nil => intro h; simp [Store.find?] at h
  | cons p rest ih =>
    intro h
    by_cases hk : p.1 = id
    · cases p with
      | mk k v =>
        simp only at hk
        simp [Store.set, Store.find?, hk]
    · cases p with
      | mk k v =>
        simp only at hk
        simp only [Store.set, Store.find?, hk, if_false, if_neg hk] at h ⊢
        exact ih h

theorem find?_set_ne (st : Store) (id id' : String) (s : Session) (h : id ≠ id') :
    (st.set id s).find? id' = st.find? id' := by
  induction st with
  | nil => simp [Store.set, Store.find?]
  | cons p rest ih =>
    cases p with
    | mk k v =>
      by_cases hk : k = id
      · subst hk
        simp [Store.set, Store.find?, h]
      · simp [Store.set, Store.find?, hk, ih]

theorem find?_append_single_self (st : Store) (id : String) (s : Session)
    (h : st.find? id = none) : (st ++ [(id, s)] : Store).find? id = some s := by
  induction st with
  | nil => simp [Store.find?]
  | cons p rest ih =>
    cases p with
    | mk k v =>
      by_cases hk : k = id
      · simp [Store.find?, hk] at h
      · simp only [Store.find?, hk, if_neg hk, List.cons_append] at h ⊢
        exact ih h

theorem find?_append_single_ne (st : Store) (id id' : String) (s : Session)
    (h : id ≠ id') : (st ++ [(id, s)] : Store).find? id' = st.find? id' := by
  induction st with
  | nil => simp [Store.find?, h]
  | cons p rest ih =>
    cases p with
    | mk k v =>
      by_cases hk : k = id'
      · simp [Store.find?, hk]
      · simp only [Store.find?, hk, if_neg hk, List.cons_append] at ih ⊢
        exact ih

/-- After `get_session`, the id is always present, bound to the returned
session. -/
theorem get_session_find? (fresh id : String) (st : Store) :
    (get_session fresh id st).2.find? id = some (get_session fresh id st).1 := by
  unfold get_session
  cases h : st.find? id with
  | some s => simp [h]
  | none => simpa [h] using find?_append_single_self st id (emptySession fresh) h

theorem get_session_isSome (fresh id : String) (st : Store) :
    ((get_session fresh id st).2.find? id).isSome = true := by
  rw [get_session_find?]; rfl

/-- Every other id's binding is unchanged by `get_session`. -/
theorem get_session_find?_ne (fresh id id' : String) (st : Store) (h : id ≠ id') :
    (get_session fresh id st).2.find? id' = st.find? id' := by
  unfold get_session
  cases hf : st.find? id with
  | some s => simp
  | none => simpa using find?_append_single_ne st id id' (emptySession fresh) h

/-- Binding under `id` after `update_history`: the old session (as
delivered by `get_session`) with the two turns appended. -/
theorem update_history_find? (fresh id : String) (u m : String) (st : Store) :
    (update_history fresh id u m st).find? id =
      some { (get_session fresh id st).1 with
             history := (get_session fresh id st).1.history ++
               [⟨Role.user, u⟩, ⟨Role.model, m⟩] } := by
  unfold update_history
  exact find?_set_self _ _ _ (get_session_isSome fresh id st)

/-- Binding under `id` after `update_profile`: the old session with each
field overwritten exactly when the supplied value is truthy. -/
theorem update_profile_find? (fresh id : String) (n e : Option String) (st : Store) :
    (update_profile fresh id n e st).find? id =
      some { (get_session fresh id st).1 with
             name := if truthy n then n else (get_session fresh id st).1.name
             email := if truthy e then e else (get_session fresh id st).1.email } := by
  unfold update_profile
  exact find?_set_self _ _ _ (get_session_isSome fresh id st)

theorem clear_find? (id : String) (st : Store) : (clear id st).find? id = none := by
  induction st with
  | nil => rfl
  | cons p rest ih =>
    cases p with
    | mk k v =>
      by_cases hk : k = id
      · simpa [clear, List.filter, hk] using ih
      · simpa [clear, List.filter, hk, Store.find?] using ih

theorem clear_of_absent (id : String) (st : Store) (h : st.find? id = none) :
    clear id st = st := by
  induction st with
  | nil => rfl
  | cons p rest ih =>
    cases p with
    | mk k v =>
      by_cases hk : k = id
      · simp [Store.find?, hk] at h
      · simp only [Store.find?, hk, if_neg hk, if_false] at h
        simp only [clear] at ih ⊢
        rw [List.filter_cons_of_pos (by simpa using hk), ih h]

/-! ### JSON values and the robust-parsing step -/

/-- Python values produced by `json.loads`.  Numbers are restricted to
integers: no claim inspects a numeric payload, and the reasoning-service
contract is string-valued. -/
inductive PyJson where
  | obj (fields : List (String × PyJson))
  | arr (elems : List PyJson)
  | str (s : String)
  | num (n : Int)
  | boolean (b : Bool)
  | null

/-- Python `dict.get(key, default)` lookup on a decoded object.  `json.loads`
yields a dict with unique keys (a duplicate key keeps the last value at
decode time, outside this model), so first-match lookup agrees with it. -/
def dictGet : List (String × PyJson) → String → Option PyJson
  | [], _ => none
  | (k, v) :: rest, key => if k = key then some v else dictGet rest key

/-- True when `needle` is an initial run of `l`
(character-for-character). -/
def hasLead : List Char → List Char → Bool
  | [], _ => true
  | _ :: _, [] => false
  | a :: as, b :: bs => a = b && hasLead as bs

/-- True when `needle` occurs contiguously
somewhere in `l` (Python's `needle in hay`). -/
def containsChars (needle : List Char) : List Char → Bool
  | [] => hasLead needle []
  | c :: cs => hasLead needle (c :: cs) || containsChars needle cs

/-- Python `needle in hay` on strings. -/
def containsStr (needle hay : String) : Bool :=
  containsChars needle.toList hay.toList

/-- The seven-character opening marker matched first by the regex
alternation in `re.sub(r'```json|```', '', raw_text)`. -/
def jsonMarker : List Char := "```json".toList

/-- The three-character fence marker, matched when the longer alternative
fails. -/
def fenceMarker : List Char := "```".toList

/-- One left-to-right pass of `re.sub(r'```json|```', '', s)`: at each
position the regex engine tries the alternative `` ```json `` first, then
`` ``` ``; on a match the matched characters are dropped and scanning
resumes after them, otherwise the character is kept.  Structural
recursion on a fuel argument keeps the definition kernel-reducible; every
step consumes at least one character, so fuel equal to the input length
(as supplied by `stripMarkers`) never runs out. -/
def stripMarkersFuel : Nat → List Char → List Char
  | _, [] => []
  | 0, l => l
  | fuel + 1, c :: cs =>
    if hasLead jsonMarker (c :: cs) then stripMarkersFuel fuel (cs.drop 6)
    else if hasLead fenceMarker (c :: cs) then stripMarkersFuel fuel (cs.drop 2)
    else c :: stripMarkersFuel fuel cs

/-- Model of `re.sub(r'```json|```', '', s)` as used in the fenced-code-block
cleanup of `chat_voice`. -/
def stripMarkers (s : String) : String :=
  ⟨stripMarkersFuel s.toList.length s.toList⟩

/-- Characters removed by Python's `str.strip()` with no argument. -/
def isPySpace (c : Char) : Bool :=
  c = ' ' || c = '\t' || c = '\n' || c = '\r' || c = Char.ofNat 11 || c = Char.ofNat 12

/-- Python `str.strip()`: remove leading and trailing whitespace. -/
def pyStrip (s : String) : String :=
  ⟨((s.toList.dropWhile isPySpace).reverse.dropWhile isPySpace).reverse⟩

/-- The default supplied to `data.get("response_text", ...)`. -/
def notSureText : String := "I\x27m not sure I understood."

/-- The "Robust JSON Parsing" block of `chat_voice` (the `try`/`except
json.JSONDecodeError` around `json.loads(raw_text)`).  The outcome of the
decoder is the oracle `load` (`none` encodes a raised
`json.JSONDecodeError`).  A decoded non-dict value makes `data.get`
raise `AttributeError`, which is *not* caught here and propagates to the
handler's top-level `except` — encoded as `Except.error`. -/
def parseReply (load : Option PyJson) (rawText userText : String) :
    Except Unit (PyJson × PyJson) :=
  match load with
  | none =>
      Except.ok (PyJson.str userText, PyJson.str (pyStrip (stripMarkers rawText)))
  | some (PyJson.obj fields) =>
      Except.ok
        ((dictGet fields "user_summary").getD (PyJson.str userText),
         (dictGet fields "response_text").getD (PyJson.str notSureText))
  | some _ => Except.error ()

/-- Text content of a decoded JSON value flowing into the string positions
of the pipeline (history texts, TTS input).  The reasoning-service
contract and the source's `str` annotations make these positions strings;
the rendering of any other value is irrelevant to every claim and is
fixed arbitrarily here. -/
def pyText : PyJson → String
  | PyJson.str s => s
  | PyJson.num n => toString n
  | PyJson.boolean true => "True"
  | PyJson.boolean false => "False"
  | PyJson.null => "None"
  | PyJson.obj _ => "object"
  | PyJson.arr _ => "array"

/-! ### `transcribe_audio` -/

/-- Outcome of one speech-recognition attempt (or of opening the audio
file feeding it): the recognized text, `sr.UnknownValueError` (no speech
understood), `ValueError` (undecodable container on direct load), or any
other exception. -/
inductive RecognitionOutcome where
  | recognized (text : String)
  | unknownValue
  | valueError
  | failure
deriving DecidableEq, Repr

/-- True when the outcome is the recognizer's explicit "no speech
understood" signal. -/
def RecognitionOutcome.isNoSpeech : RecognitionOutcome → Bool
  | RecognitionOutcome.unknownValue => true
  | _ => false

/-- True when the outcome is a format/decoding error of the direct load
(`ValueError`) or any other non-recognition exception — the failures the
spec calls "format/decoding" failures of the fast path. -/
def RecognitionOutcome.isFormatFailure : RecognitionOutcome → Bool
  | RecognitionOutcome.valueError => true
  | RecognitionOutcome.failure => true
  | _ => false

/-- Result of one run of `transcribe_audio`: the returned string, and
whether the slow (transcode) path was entered. -/
structure TranscribeRun where
  text : String
  usedFallback : Bool
deriving DecidableEq, Repr

/-- Model of `transcribe_audio`, with the external recognition and transcoding
calls as oracles: `fast` is the direct-load attempt, `convert` the
`pydub` transcode (`AudioSegment.from_file` + `export`), `slow` the
recognition attempt on the transcoded file.  The fast path catches
`(ValueError, sr.UnknownValueError)` *and* generic exceptions, in both
cases falling through to the slow path; on the slow path
`sr.UnknownValueError` yields `"Silence"` and any other exception
(including a transcode failure) yields `"System Error"`. -/
def transcribe_audio (fast : RecognitionOutcome) (convert : Except Unit Unit)
    (slow : RecognitionOutcome) : TranscribeRun :=
  match fast with
  | RecognitionOutcome.recognized t => { text := t, usedFallback := false }
  | _ =>
    match convert with
    | Except.error _ => { text := "System Error", usedFallback := true }
    | Except.ok _ =>
      match slow with
      | RecognitionOutcome.recognized t => { text := t, usedFallback := true }
      | RecognitionOutcome.unknownValue => { text := "Silence", usedFallback := true }
      | RecognitionOutcome.valueError => { text := "System Error", usedFallback := true }
      | RecognitionOutcome.failure => { text := "System Error", usedFallback := true }

/-! ### `PersonaEngine` -/

/-- Environment of one run of `PersonaEngine._load_and_summarize`:
existence and contents of the persona document and of the summary cache,
availability of the API client, the outcome of the remote summary call,
whether the cache write succeeds, and whether any other filesystem
operation raises (covered by the outer `except`). -/
structure PersonaInputs where
  docExists : Bool
  docText : String
  cacheExists : Bool
  cacheText : String
  clientPresent : Bool
  llm : Except Unit String
  cacheWriteOk : Bool
  loadRaises : Bool

/-- Model of `PersonaEngine._generate_summary_via_llm`: without a client, a fixed
default; otherwise the remote call's text, or the fixed
generation-failed string when the call raises. -/
def generate_summary_via_llm (clientPresent : Bool) (llm : Except Unit String) : String :=
  if !clientPresent then "No API Key - Default Persona"
  else
    match llm with
    | Except.ok t => t
    | Except.error _ => "Professional Digital Twin (Summary Generation Failed)"

/-- The marker guarding the cache write:
`if "Summary Generation Failed" not in self.summary`. -/
def generationFailedMarker : String := "Summary Generation Failed"

/-- Outcome of `PersonaEngine._load_and_summarize`: the fields set on the
engine, plus the content written to the cache file, if any. -/
structure PersonaState where
  raw_text : String
  summary : String
  cacheWritten : Option String
deriving DecidableEq, Repr

/-- Model of `PersonaEngine._load_and_summarize`: load the document, reuse a cached
summary verbatim when one exists, otherwise generate one and cache it
only when it does not contain the generation-failed marker (a failing
cache write is caught and logged); a missing document yields fixed
defaults, and any unanticipated exception yields the outer-catch
defaults. -/
def load_and_summarize (inp : PersonaInputs) : PersonaState :=
  if inp.loadRaises then
    { raw_text := "Error loading persona.", summary := "A helpful assistant.",
      cacheWritten := none }
  else if inp.docExists then
    if inp.cacheExists then
      { raw_text := inp.docText, summary := inp.cacheText, cacheWritten := none }
    else
      let summary := generate_summary_via_llm inp.clientPresent inp.llm
      { raw_text := inp.docText, summary := summary,
        cacheWritten :=
          if !containsStr generationFailedMarker summary && inp.cacheWriteOk
          then some summary else none }
  else
    { raw_text := "Standard Professional Persona",
      summary := "A helpful professional assistant.", cacheWritten := none }

/-! ### The `chat_voice` request handler -/

/-- Form fields of one `POST /api/chat-voice` request (the audio blob
itself is opaque to the handler's logic). -/
structure Request where
  session_id : String
  user_name : Option String
  user_email : Option String

/-- Suffix chosen for the input temp file from the declared content type;
purely advisory for the transcoder's fast path. -/
def tempSuffix (contentType : String) : String :=
  if contentType = "audio/wav" then ".wav" else ".webm"

/-- Outcome of step 1 of the handler, `tempfile.NamedTemporaryFile(...)`
followed by `shutil.copyfileobj(file.file, tmp)` inside the `with` block.
`NamedTemporaryFile(delete=False, ...)` creates the file on disk at
construction, and `temp_input_path = tmp.name` is assigned only after the
copy succeeds, so three outcomes are observable: the construction itself
raises (no file on disk, `temp_input_path` still `None`); the file is
created but the copy raises (file on disk, `temp_input_path` still
`None`); or both succeed (file on disk, path recorded). -/
inductive IngestOutcome where
  | failedBeforeCreate
  | failedAfterCreate
  | ok
deriving DecidableEq, Repr

/-- Outcomes of the external calls made during one execution of
`chat_voice`.  `ingest` is the creation of the input temp file and the
copy of the upload into it (see `IngestOutcome`); `transcript` is the
string returned by `transcribe_audio` (always a string, see
`transcribe_audio`); `llm` is the `generate_content` call (an error also
covers the `client is None` case); `jsonLoad` is the outcome of
`json.loads` on the reply (`none` = `JSONDecodeError`); `tts` is the
`edge_tts` save of the response audio; `apologyTts` is
`generate_error_audio` in the top-level `except`; `outName` and
`apologyPath` are the generated output file names and `fresh` the UUID
used if a session must be created. -/
structure Oracles where
  ingest : IngestOutcome
  transcript : String
  llm : Except Unit String
  jsonLoad : Option PyJson
  tts : Except Unit Unit
  apologyTts : Except Unit Unit
  outName : String
  apologyPath : String
  fresh : String

/-- A response body: a file response carrying an audio file, or a JSON
body (produced elsewhere in the app, e.g. by `/api/reset`, never by
`chat_voice`). -/
inductive Body where
  | audio (path : String) (filename : String)
  | jsonBody (s : String)
deriving DecidableEq, Repr

/-- Whether the body is an audio file response. -/
def Body.isAudio : Body → Bool
  | Body.audio _ _ => true
  | _ => false

/-- An HTTP response as produced by the handler (`FileResponse` defaults
to status 200). -/
structure HttpResponse where
  status : Nat
  mediaType : String
  body : Body
deriving DecidableEq, Repr

/-- Observable side effects of one execution: whether the input temp file
was created and whether `remove_file` was called on it, the conversation
contents handed to the reasoning service, the text handed to TTS, the
deferred deletions queued on `background_tasks`, and whether the
top-level `except` block ran. -/
structure Effects where
  inputCreated : Bool
  inputDeleted : Bool
  llmRequest : Option (List Turn)
  ttsInput : Option String
  scheduled : List String
  caught : Bool
deriving DecidableEq, Repr

/-- Effects at handler entry. -/
def emptyEffects : Effects :=
  { inputCreated := false, inputDeleted := false, llmRequest := none,
    ttsInput := none, scheduled := [], caught := false }

/-- Result of one execution: the handler's returned response
(`Except.error` when an exception escapes the handler itself, which the
framework surfaces as a 5xx), the session store afterwards, and the
accumulated effects. -/
structure RunResult where
  result : Except Unit HttpResponse
  store : Store
  eff : Effects
deriving Repr

/-- The top-level `except Exception` block of `chat_voice`: call
`remove_file` on the input temp file when its path was recorded
(`if temp_input_path:` — `pathRecorded` here; a file created whose path
was never assigned is *not* deleted), synthesize the apology clip
(unguarded — its own failure propagates), schedule its deletion and
return it as a 200 audio response. -/
def catchPath (o : Oracles) (st : Store) (pathRecorded : Bool) (eff : Effects) : RunResult :=
  let eff := { eff with caught := true, inputDeleted := pathRecorded || eff.inputDeleted }
  match o.apologyTts with
  | Except.error _ => { result := Except.error (), store := st, eff := eff }
  | Except.ok _ =>
      { result := Except.ok { status := 200, mediaType := "audio/mpeg",
                              body := Body.audio o.apologyPath "error.mp3" },
        store := st,
        eff := { eff with scheduled := eff.scheduled ++ [o.apologyPath] } }

/-- The `POST /api/chat-voice` handler.  Steps, in source order: persist
the upload to a temp file; update the profile when a truthy name or
email was supplied; transcribe; load the session and read its history;
build the text-only conversation contents (last 6 turns plus the new
transcript as a user turn — the system-instruction string, which no
claim inspects, is not modelled); call the reasoning service; robustly
parse its reply; commit `(user_summary, response_text)` to the history;
synthesize speech from `response_text`; delete the input file, schedule
deletion of the output and return it as a 200 audio response.  Any
exception in these steps lands in `catchPath`; note that when step 1
fails after creating the temp file, `temp_input_path` is still `None`,
so `catchPath` is entered with `pathRecorded = false` although the file
exists on disk. -/
def chat_voice (req : Request) (st : Store) (o : Oracles) : RunResult :=
  match o.ingest with
  | IngestOutcome.failedBeforeCreate => catchPath o st false emptyEffects
  | IngestOutcome.failedAfterCreate =>
    catchPath o st false { emptyEffects with inputCreated := true }
  | IngestOutcome.ok =>
    let eff0 := { emptyEffects with inputCreated := true }
    let st1 :=
      if truthy req.user_name || truthy req.user_email then
        update_profile o.fresh req.session_id req.user_name req.user_email st
      else st
    let user_text := o.transcript
    let p := get_session o.fresh req.session_id st1
    let st2 := p.2
    let contents := p.1.history.drop (p.1.history.length - 6) ++ [⟨Role.user, user_text⟩]
    let eff1 := { eff0 with llmRequest := some contents }
    match o.llm with
    | Except.error _ => catchPath o st2 true eff1
    | Except.ok raw_text =>
      match parseReply o.jsonLoad raw_text user_text with
      | Except.error _ => catchPath o st2 true eff1
      | Except.ok usrt =>
        let user_summary := pyText usrt.1
        let response_text := pyText usrt.2
        let st3 := update_history o.fresh req.session_id user_summary response_text st2
        let eff2 := { eff1 with ttsInput := some response_text }
        match o.tts with
        | Except.error _ => catchPath o st3 true eff2
        | Except.ok _ =>
          { result := Except.ok { status := 200, mediaType := "audio/mpeg",
                                  body := Body.audio o.outName "response.mp3" },
            store := st3,
            eff := { eff2 with inputDeleted := true, scheduled := [o.outName] } }

/-! ### Lemmas about `catchPath` and the handler -/

theorem catchPath_store (o : Oracles) (st : Store) (c : Bool) (eff : Effects) :
    (catchPath o st c eff).store = st := by
  cases h : o.apologyTts <;> simp [catchPath, h]

theorem catchPath_caught (o : Oracles) (st : Store) (c : Bool) (eff : Effects) :
    (catchPath o st c eff).eff.caught = true := by
  cases h : o.apologyTts <;> simp [catchPath, h]

theorem catchPath_llmRequest (o : Oracles) (st : Store) (c : Bool) (eff : Effects) :
    (catchPath o st c eff).eff.llmRequest = eff.llmRequest := by
  cases h : o.apologyTts <;> simp [catchPath, h]

theorem catchPath_ttsInput (o : Oracles) (st : Store) (c : Bool) (eff : Effects) :
    (catchPath o st c eff).eff.ttsInput = eff.ttsInput := by
  cases h : o.apologyTts <;> simp [catchPath, h]

theorem catchPath_inputCreated (o : Oracles) (st : Store) (c : Bool) (eff : Effects) :
    (catchPath o st c eff).eff.inputCreated = eff.inputCreated := by
  cases h : o.apologyTts <;> simp [catchPath, h]

theorem catchPath_inputDeleted (o : Oracles) (st : Store) (c : Bool) (eff : Effects) :
    (catchPath o st c eff).eff.inputDeleted = (c || eff.inputDeleted) := by
  cases h : o.apologyTts <;> simp [catchPath, h]

theorem catchPath_result_ok (o : Oracles) (st : Store) (c : Bool) (eff : Effects)
    (ha : o.apologyTts = Except.ok ()) :
    (catchPath o st c eff).result =
      Except.ok { status := 200, mediaType := "audio/mpeg",
                  body := Body.audio o.apologyPath "error.mp3" } := by
  simp [catchPath, ha]

theorem catchPath_result_shape (o : Oracles) (st : Store) (c : Bool) (eff : Effects)
    (resp : HttpResponse) (h : (catchPath o st c eff).result = Except.ok resp) :
    resp.status = 200 ∧ resp.body.isAudio = true := by
  cases ha : o.apologyTts with
  | error e => simp [catchPath, ha] at h
  | ok u =>
    simp [catchPath, ha] at h
    subst h
    exact ⟨rfl, rfl⟩

theorem get_session_eq_of_find? (fresh id : String) (st : Store) (s : Session)
    (h : st.find? id = some s) : get_session fresh id st = (s, st) := by
  unfold get_session; rw [h]

theorem get_session_eq_of_none (fresh id : String) (st : Store)
    (h : st.find? id = none) :
    get_session fresh id st = (emptySession fresh, st ++ [(id, emptySession fresh)]) := by
  unfold get_session; rw [h]

/-! ## The claims -/

/-- C8: `appendTurn` (`SessionManager.update_history`) appends exactly two
entries to the session's history — one user turn with the given user text
then one model turn with the given model text, in that order — so the
history length grows by exactly 2 per call (monotonically non-decreasing)
and nothing truncates the history at append time. -/
theorem c8_appendTurn_appends_exactly_two (fresh id u m : String) (st : Store) :
    (update_history fresh id u m st).find? id =
      some { (get_session fresh id st).1 with
             history := (get_session fresh id st).1.history ++
               [Turn.mk Role.user u, Turn.mk Role.model m] } ∧
    ((get_session fresh id st).1.history ++
        [Turn.mk Role.user u, Turn.mk Role.model m]).length =
      (get_session fresh id st).1.history.length + 2 := by
  refine ⟨update_history_find? fresh id u m st, ?_⟩
  simp

/-- C7: a profile field (`name` or `email`) is overwritten only by a call
supplying a truthy (non-empty, non-`None`) value for it, and a previously
set field is never cleared by a call that omits it: after
`update_profile`, each field equals the supplied value when that value is
truthy and is otherwise unchanged. -/
theorem c7_updateProfile_only_truthy_overwrites (fresh fresh2 id : String)
    (n e : Option String) (st : Store) :
    (truthy n = false →
      (get_session fresh2 id (update_profile fresh id n e st)).1.name =
        (get_session fresh2 id st).1.name) ∧
    (truthy n = true →
      (get_session fresh2 id (update_profile fresh id n e st)).1.name = n) ∧
    (truthy e = false →
      (get_session fresh2 id (update_profile fresh id n e st)).1.email =
        (get_session fresh2 id st).1.email) ∧
    (truthy e = true →
      (get_session fresh2 id (update_profile fresh id n e st)).1.email = e) := by
  have hu := update_profile_find? fresh id n e st
  cases hf : st.find? id with
  | some s =>
    rw [get_session_eq_of_find? fresh id st s hf] at hu
    rw [get_session_eq_of_find? fresh2 id
      (update_profile fresh id n e st) _ hu]
    rw [get_session_eq_of_find? fresh2 id st s hf]
    refine ⟨fun h => ?_, fun h => ?_, fun h => ?_, fun h => ?_⟩ <;> simp [h]
  | none =>
    rw [get_session_eq_of_none fresh id st hf] at hu
    rw [get_session_eq_of_find? fresh2 id
      (update_profile fresh id n e st) _ hu]
    rw [get_session_eq_of_none fresh2 id st hf]
    refine ⟨fun h => ?_, fun h => ?_, fun h => ?_, fun h => ?_⟩ <;>
      simp [h, emptySession]

/-- Witness for C7: setting the name then the email in two separate calls
(each omitting the other field) yields a profile with both fields set —
the second call does not clear the name. -/
theorem c7_witness :
    truthy (none : Option String) = false ∧
    truthy (some "a@x.com") = true ∧
    (get_session "f9" "s"
        (update_profile "f2" "s" none (some "a@x.com")
          (update_profile "f1" "s" (some "Alice") none []))).1.name =
      (get_session "f9" "s" (update_profile "f1" "s" (some "Alice") none [])).1.name ∧
    (get_session "f9" "s"
        (update_profile "f2" "s" none (some "a@x.com")
          (update_profile "f1" "s" (some "Alice") none []))).1.email = some "a@x.com" ∧
    (get_session "f9" "s" (update_profile "f1" "s" (some "Alice") none [])).1.name =
      some "Alice" :=
  ⟨rfl, by decide,
    (c7_updateProfile_only_truthy_overwrites "f2" "f9" "s" none (some "a@x.com")
      (update_profile "f1" "s" (some "Alice") none [])).1 rfl,
    (c7_updateProfile_only_truthy_overwrites "f2" "f9" "s" none (some "a@x.com")
      (update_profile "f1" "s" (some "Alice") none [])).2.2.2 (by decide),
    (c7_updateProfile_only_truthy_overwrites "f1" "f9" "s" (some "Alice") none []).2.1
      (by decide)⟩

/-- C9: `get` on a never-seen id yields a session with empty history and
empty profile; `clear` removes the session so a subsequent `get` yields
such a fresh empty session again (indistinguishable from a never-seen
id); `clear` on a nonexistent id is a no-op, not an error. -/
theorem c9_fresh_get_and_clear (fresh id : String) (st : Store) :
    (clear id st).find? id = none ∧
    (get_session fresh id (clear id st)).1 = emptySession fresh ∧
    (st.find? id = none →
      (get_session fresh id st).1 = emptySession fresh ∧ clear id st = st) := by
  refine ⟨clear_find? id st, ?_, fun h => ⟨?_, clear_of_absent id st h⟩⟩
  · rw [get_session_eq_of_none fresh id _ (clear_find? id st)]
  · rw [get_session_eq_of_none fresh id st h]

/-- Witness for C9 at a concrete store: clearing the only session removes
it, the next `get` is a fresh empty session, and clearing an id that was
never present leaves the store untouched. -/
theorem c9_witness :
    (clear "a" [("a", emptySession "f0")]).find? "a" = none ∧
    (get_session "f1" "a" (clear "a" [("a", emptySession "f0")])).1 = emptySession "f1" ∧
    (Store.find? [("a", emptySession "f0")] "b" = none) ∧
    (get_session "f1" "b" [("a", emptySession "f0")]).1 = emptySession "f1" ∧
    clear "b" [("a", emptySession "f0")] = [("a", emptySession "f0")] :=
  have h := c9_fresh_get_and_clear "f1" "b" [("a", emptySession "f0")]
  ⟨(c9_fresh_get_and_clear "f1" "a" [("a", emptySession "f0")]).1,
   (c9_fresh_get_and_clear "f1" "a" [("a", emptySession "f0")]).2.1,
   by decide,
   (h.2.2 (by decide)).1,
   (h.2.2 (by decide)).2⟩

/-- C10: mutating an id not present in the store first installs a fresh
empty session and then applies the mutation: `update_history` on an
absent id leaves exactly the two new turns under that id,
`update_profile` on an absent id leaves exactly the truthy-supplied
fields, and a subsequent `get` observes the mutated session rather than
an error or a reset one. -/
theorem c10_mutation_creates_then_applies (fresh fresh2 id u m : String)
    (n e : Option String) (st : Store) (h : st.find? id = none) :
    (update_history fresh id u m st).find? id =
      some { history := [⟨Role.user, u⟩, ⟨Role.model, m⟩], name := none,
             email := none, created_at := fresh } ∧
    (update_profile fresh id n e st).find? id =
      some { history := [], name := if truthy n then n else none,
             email := if truthy e then e else none, created_at := fresh } ∧
    (get_session fresh2 id (update_history fresh id u m st)).1 =
      { history := [⟨Role.user, u⟩, ⟨Role.model, m⟩], name := none,
        email := none, created_at := fresh } := by
  have hh := update_history_find? fresh id u m st
  have hp := update_profile_find? fresh id n e st
  rw [get_session_eq_of_none fresh id st h] at hh hp
  simp only [emptySession, List.nil_append] at hh hp
  refine ⟨hh, hp, ?_⟩
  rw [get_session_eq_of_find? fresh2 id _ _ hh]

/-- Witness for C10: on the empty store, `update_history` and
`update_profile` create and mutate the session, and `get` then sees the
result. -/
theorem c10_witness :
    (Store.find? ([] : Store) "s" = none) ∧
    (update_history "f" "s" "hi" "hello" []).find? "s" =
      some { history := [⟨Role.user, "hi"⟩, ⟨Role.model, "hello"⟩], name := none,
             email := none, created_at := "f" } ∧
    (update_profile "f" "s" (some "Alice") none []).find? "s" =
      some { history := [], name := if truthy (some "Alice") then some "Alice" else none,
             email := if truthy (none : Option String) then none else none,
             created_at := "f" } ∧
    (get_session "f2" "s" (update_history "f" "s" "hi" "hello" [])).1 =
      { history := [⟨Role.user, "hi"⟩, ⟨Role.model, "hello"⟩], name := none,
        email := none, created_at := "f" } :=
  ⟨rfl,
   (c10_mutation_creates_then_applies "f" "f2" "s" "hi" "hello"
     (some "Alice") none [] rfl).1,
   (c10_mutation_creates_then_applies "f" "f2" "s" "hi" "hello"
     (some "Alice") none [] rfl).2.1,
   (c10_mutation_creates_then_applies "f" "f2" "s" "hi" "hello"
     (some "Alice") none [] rfl).2.2⟩

/-- C4 counterexample: when the fast path reports "no speech understood"
(`sr.UnknownValueError`), the code nonetheless enters the transcoding
fallback path — contradicting the claim that the fallback is entered only
on a format/decoding error — and if the transcode then fails, the result
is `"System Error"`, not the `"Silence"` the claim requires whenever any
path reported no speech understood. -/
theorem c4_counterexample :
    (transcribe_audio RecognitionOutcome.unknownValue (Except.error ())
        RecognitionOutcome.failure).usedFallback = true ∧
    (transcribe_audio RecognitionOutcome.unknownValue (Except.error ())
        RecognitionOutcome.failure).text = "System Error" ∧
    RecognitionOutcome.isNoSpeech RecognitionOutcome.unknownValue = true ∧
    RecognitionOutcome.isFormatFailure RecognitionOutcome.unknownValue = false :=
  ⟨rfl, rfl, rfl, rfl⟩

/-- C4 (amended): `transcribe` always returns a string (the model is a
total function — no exception escapes): the recognized text when the
direct load succeeds, with no fallback; otherwise the fallback path is
entered whatever the reason the fast path failed (format error, no
speech understood, or any other failure), and then the result is
`"System Error"` when transcoding fails, and otherwise the slow-path
recognition's text, `"Silence"` on its no-speech report, or
`"System Error"` on any of its other failures. -/
theorem c4_transcribe_total_characterization (fast slow : RecognitionOutcome)
    (convert : Except Unit Unit) :
    (∀ t, fast = RecognitionOutcome.recognized t →
      transcribe_audio fast convert slow = { text := t, usedFallback := false }) ∧
    ((∀ t, fast ≠ RecognitionOutcome.recognized t) →
      (transcribe_audio fast convert slow).usedFallback = true ∧
      (convert = Except.error () →
        (transcribe_audio fast convert slow).text = "System Error") ∧
      (convert = Except.ok () →
        (∀ t, slow = RecognitionOutcome.recognized t →
          (transcribe_audio fast convert slow).text = t) ∧
        (slow = RecognitionOutcome.unknownValue →
          (transcribe_audio fast convert slow).text = "Silence") ∧
        ((∀ t, slow ≠ RecognitionOutcome.recognized t) →
          slow ≠ RecognitionOutcome.unknownValue →
          (transcribe_audio fast convert slow).text = "System Error"))) := by
  cases fast <;> cases convert <;> cases slow <;>
    simp [transcribe_audio]

/-- Witness for C4: a fast-path no-speech report followed by a successful
transcode and a slow-path no-speech report enters the fallback and
returns `"Silence"`. -/
theorem c4_witness :
    (∀ t, RecognitionOutcome.unknownValue ≠ RecognitionOutcome.recognized t) ∧
    ((transcribe_audio RecognitionOutcome.unknownValue (Except.ok ())
        RecognitionOutcome.unknownValue).usedFallback = true ∧
      (Except.ok () = (Except.error () : Except Unit Unit) →
        (transcribe_audio RecognitionOutcome.unknownValue (Except.ok ())
          RecognitionOutcome.unknownValue).text = "System Error") ∧
      ((Except.ok () : Except Unit Unit) = Except.ok () →
        (∀ t, RecognitionOutcome.unknownValue = RecognitionOutcome.recognized t →
          (transcribe_audio RecognitionOutcome.unknownValue (Except.ok ())
            RecognitionOutcome.unknownValue).text = t) ∧
        (RecognitionOutcome.unknownValue = RecognitionOutcome.unknownValue →
          (transcribe_audio RecognitionOutcome.unknownValue (Except.ok ())
            RecognitionOutcome.unknownValue).text = "Silence") ∧
        ((∀ t, RecognitionOutcome.unknownValue ≠ RecognitionOutcome.recognized t) →
          RecognitionOutcome.unknownValue ≠ RecognitionOutcome.unknownValue →
          (transcribe_audio RecognitionOutcome.unknownValue (Except.ok ())
            RecognitionOutcome.unknownValue).text = "System Error"))) :=
  ⟨(fun _t h => nomatch h),
   (c4_transcribe_total_characterization RecognitionOutcome.unknownValue
      RecognitionOutcome.unknownValue (Except.ok ())).2
     (fun _t h => nomatch h)⟩

/-- C5: a summary written to the persona cache never contains the
generation-failed marker; and whenever the summary generation path is
taken and the remote call fails, the summary is the fixed fallback string
and nothing is written to the cache. -/
theorem c5_failed_summary_never_cached (inp : PersonaInputs) :
    (∀ s, (load_and_summarize inp).cacheWritten = some s →
      containsStr generationFailedMarker s = false) ∧
    (inp.loadRaises = false → inp.docExists = true → inp.cacheExists = false →
      inp.clientPresent = true → inp.llm = Except.error () →
      (load_and_summarize inp).summary =
        "Professional Digital Twin (Summary Generation Failed)" ∧
      (load_and_summarize inp).cacheWritten = none) := by
  constructor
  · intro s hs
    unfold load_and_summarize at hs
    split at hs
    · simp at hs
    · split at hs
      · split at hs
        · simp at hs
        · simp only [Option.ite_none_right_eq_some, Option.some.injEq] at hs
          obtain ⟨hc, hval⟩ := hs
          subst hval
          rcases (Bool.and_eq_true _ _).mp hc with ⟨hno, _⟩
          simpa using hno
      · simp at hs
  · intro h1 h2 h3 h4 h5
    have hmark : containsStr generationFailedMarker
        "Professional Digital Twin (Summary Generation Failed)" = true := by decide
    unfold load_and_summarize generate_summary_via_llm
    rw [h1, h2, h3, h4, h5]
    simp [hmark]

/-- Witness for C5: with the document present, no cache, a client, and a
failing remote call, the summary is the fixed fallback and the cache is
untouched. -/
theorem c5_witness :
    (load_and_summarize
        { docExists := true, docText := "doc", cacheExists := false, cacheText := "",
          clientPresent := true, llm := Except.error (), cacheWriteOk := true,
          loadRaises := false }).summary =
      "Professional Digital Twin (Summary Generation Failed)" ∧
    (load_and_summarize
        { docExists := true, docText := "doc", cacheExists := false, cacheText := "",
          clientPresent := true, llm := Except.error (), cacheWriteOk := true,
          loadRaises := false }).cacheWritten = none :=
  (c5_failed_summary_never_cached
    { docExists := true, docText := "doc", cacheExists := false, cacheText := "",
      clientPresent := true, llm := Except.error (), cacheWriteOk := true,
      loadRaises := false }).2 rfl rfl rfl rfl rfl

theorem update_profile_history (fresh id : String) (n e : Option String) (st : Store)
    (sess : Session) (hs : st.find? id = some sess) :
    (update_profile fresh id n e st).find? id =
      some { sess with name := if truthy n then n else sess.name,
                       email := if truthy e then e else sess.email } := by
  have h := update_profile_find? fresh id n e st
  rw [get_session_eq_of_find? fresh id st sess hs] at h
  exact h

theorem update_history_of_find? (fresh id u m : String) (st : Store)
    (sess : Session) (hs : st.find? id = some sess) :
    (update_history fresh id u m st).find? id =
      some { sess with history := sess.history ++
        [Turn.mk Role.user u, Turn.mk Role.model m] } := by
  have h := update_history_find? fresh id u m st
  rw [get_session_eq_of_find? fresh id st sess hs] at h
  exact h

/-- After the optional profile-update step of `chat_voice`, the session is
still registered and its history is untouched. -/
theorem profile_step_find? (fresh id : String) (n e : Option String) (b : Bool)
    (st : Store) (sess : Session) (hs : st.find? id = some sess) :
    ∃ sess₁, (if b then update_profile fresh id n e st else st).find? id = some sess₁ ∧
      sess₁.history = sess.history := by
  cases b with
  | false => exact ⟨sess, hs, rfl⟩
  | true => exact ⟨_, update_profile_history fresh id n e st sess hs, rfl⟩

/-- Behavior of the tail of the pipeline once the reasoning reply has been
parsed: the pair is committed to the session history and its second
component is handed to TTS, whatever the outcome of the TTS call and of
a subsequent apology synthesis. -/
theorem chat_voice_commit (req : Request) (st : Store) (o : Oracles)
    (sess₁ : Session) (raw : String) (usJ rtJ : PyJson)
    (hi : o.ingest = IngestOutcome.ok)
    (hs₁ : ((if truthy req.user_name || truthy req.user_email then
        update_profile o.fresh req.session_id req.user_name req.user_email st
      else st) : Store).find? req.session_id = some sess₁)
    (hl : o.llm = Except.ok raw)
    (hp : parseReply o.jsonLoad raw o.transcript = Except.ok (usJ, rtJ)) :
    (chat_voice req st o).eff.ttsInput = some (pyText rtJ) ∧
    (chat_voice req st o).store.find? req.session_id =
      some { sess₁ with history := sess₁.history ++
        [Turn.mk Role.user (pyText usJ), Turn.mk Role.model (pyText rtJ)] } := by
  have hst3 := update_history_of_find? o.fresh req.session_id (pyText usJ) (pyText rtJ)
    _ sess₁ hs₁
  simp only [chat_voice, hi, hl, hp,
    get_session_eq_of_find? o.fresh req.session_id _ sess₁ hs₁]
  cases htts : o.tts with
  | error e =>
    cases e
    simp only [catchPath_ttsInput, catchPath_store]
    exact ⟨by trivial, hst3⟩
  | ok u =>
    cases u
    exact ⟨by trivial, hst3⟩

/-- C2: with the session present and the input step succeeding, the
contents handed to the reasoning service are exactly the most recent
`min(n, 6)` history entries (a suffix: oldest dropped first) followed by
the new transcript as a user turn; and the session's full history is
retained — whatever happens later, the stored history still extends the
original one. -/
theorem c2_context_window_last_six (req : Request) (st : Store) (o : Oracles)
    (sess : Session) (hs : st.find? req.session_id = some sess)
    (hi : o.ingest = IngestOutcome.ok) :
    (chat_voice req st o).eff.llmRequest =
      some (sess.history.drop (sess.history.length - 6) ++
        [Turn.mk Role.user o.transcript]) ∧
    (sess.history.drop (sess.history.length - 6)).length = min sess.history.length 6 ∧
    ∃ sess' tail, (chat_voice req st o).store.find? req.session_id = some sess' ∧
      sess'.history = sess.history ++ tail := by
  obtain ⟨sess₁, hs₁, hist₁⟩ := profile_step_find? o.fresh req.session_id
    req.user_name req.user_email (truthy req.user_name || truthy req.user_email)
    st sess hs
  have hmin : (sess.history.drop (sess.history.length - 6)).length =
      min sess.history.length 6 := by
    rw [List.length_drop]; omega
  simp only [chat_voice, hi,
    get_session_eq_of_find? o.fresh req.session_id _ sess₁ hs₁, hist₁]
  cases hl : o.llm with
  | error e =>
    cases e
    simp only [catchPath_llmRequest, catchPath_store]
    exact ⟨by trivial, hmin, sess₁, [], hs₁, by simp [hist₁]⟩
  | ok raw =>
    simp only []
    cases hp : parseReply o.jsonLoad raw o.transcript with
    | error e =>
      cases e
      simp only [catchPath_llmRequest, catchPath_store]
      exact ⟨by trivial, hmin, sess₁, [], hs₁, by simp [hist₁]⟩
    | ok usrt =>
      have hst3 := update_history_of_find? o.fresh req.session_id
        (pyText usrt.1) (pyText usrt.2) _ sess₁ hs₁
      simp only []
      cases htts : o.tts with
      | error e =>
        cases e
        simp only [catchPath_llmRequest, catchPath_store]
        exact ⟨by trivial, hmin,
          _, [Turn.mk Role.user (pyText usrt.1), Turn.mk Role.model (pyText usrt.2)],
          hst3, by simp [hist₁]⟩
      | ok u =>
        cases u
        exact ⟨by trivial, hmin,
          _, [Turn.mk Role.user (pyText usrt.1), Turn.mk Role.model (pyText usrt.2)],
          hst3, by simp [hist₁]⟩

/-- Witness for C2 on a concrete session of 8 turns: the request carries
the last 6 turns, then the transcript as a user turn, and the full
8-entry history is still stored afterwards. -/
theorem c2_witness :
    (Store.find?
        [("s", { history := (List.range 8).map (fun i => Turn.mk Role.user (toString i)),
                 name := none, email := none, created_at := "c" })] "s" =
      some { history := (List.range 8).map (fun i => Turn.mk Role.user (toString i)),
             name := none, email := none, created_at := "c" }) ∧
    ((chat_voice { session_id := "s", user_name := none, user_email := none }
        [("s", { history := (List.range 8).map (fun i => Turn.mk Role.user (toString i)),
                 name := none, email := none, created_at := "c" })]
        { ingest := IngestOutcome.ok, transcript := "hi", llm := Except.error (),
          jsonLoad := none, tts := Except.ok (), apologyTts := Except.ok (),
          outName := "o.mp3", apologyPath := "a.mp3", fresh := "f" }).eff.llmRequest =
      some (((List.range 8).map (fun i => Turn.mk Role.user (toString i))).drop
          (((List.range 8).map (fun i => Turn.mk Role.user (toString i))).length - 6) ++
        [Turn.mk Role.user "hi"]) ∧
      (((List.range 8).map (fun i => Turn.mk Role.user (toString i))).drop
          (((List.range 8).map (fun i => Turn.mk Role.user (toString i))).length - 6)).length =
        min ((List.range 8).map (fun i => Turn.mk Role.user (toString i))).length 6 ∧
      ∃ sess' tail,
        (chat_voice { session_id := "s", user_name := none, user_email := none }
          [("s", { history := (List.range 8).map (fun i => Turn.mk Role.user (toString i)),
                   name := none, email := none, created_at := "c" })]
          { ingest := IngestOutcome.ok, transcript := "hi", llm := Except.error (),
            jsonLoad := none, tts := Except.ok (), apologyTts := Except.ok (),
            outName := "o.mp3", apologyPath := "a.mp3", fresh := "f" }).store.find? "s" =
          some sess' ∧
        sess'.history = (List.range 8).map (fun i => Turn.mk Role.user (toString i)) ++ tail) := by
  refine ⟨by decide, ?_⟩
  exact c2_context_window_last_six
    { session_id := "s", user_name := none, user_email := none }
    [("s", { history := (List.range 8).map (fun i => Turn.mk Role.user (toString i)),
             name := none, email := none, created_at := "c" })]
    { ingest := IngestOutcome.ok, transcript := "hi", llm := Except.error (),
      jsonLoad := none, tts := Except.ok (), apologyTts := Except.ok (),
      outName := "o.mp3", apologyPath := "a.mp3", fresh := "f" }
    { history := (List.range 8).map (fun i => Turn.mk Role.user (toString i)),
      name := none, email := none, created_at := "c" }
    (by decide) rfl

/-- C3 counterexample: the reply `"{}"` decodes as a JSON object but does
not have the `StructuredReply` shape (neither field is present), yet the
pipeline's `response_text` is the `dict.get` default
`"I'm not sure I understood."`, not the reply with fence markers stripped
(`"{}"` itself) that the claim prescribes for every reply failing to
parse as that shape. -/
theorem c3_counterexample :
    dictGet [] "user_summary" = none ∧
    dictGet [] "response_text" = none ∧
    parseReply (some (PyJson.obj [])) "\x7b\x7d" "hi" =
      Except.ok (PyJson.str "hi", PyJson.str notSureText) ∧
    pyStrip (stripMarkers "\x7b\x7d") = "\x7b\x7d" ∧
    notSureText ≠ "\x7b\x7d" :=
  ⟨rfl, rfl, rfl, by decide, by decide⟩

/-- C3 (amended): for every reply string on which strict JSON decoding
itself fails (`json.JSONDecodeError`), the pipeline degrades instead of
failing at the parse step: it commits `user_summary` equal to the
original transcript and `response_text` equal to the reply with every
`` ```json `` and `` ``` `` marker removed and surrounding whitespace
trimmed, and hands that text to speech synthesis.  (When the reply
decodes but is not the expected shape, per-field `dict.get` defaults
apply instead, and a decoded non-dict reply fails the request — see the
counterexample.) -/
theorem c3_decode_failure_uses_fallback (req : Request) (st : Store) (o : Oracles)
    (sess : Session) (raw : String)
    (hs : st.find? req.session_id = some sess)
    (hi : o.ingest = IngestOutcome.ok)
    (hl : o.llm = Except.ok raw)
    (hj : o.jsonLoad = none) :
    (chat_voice req st o).eff.ttsInput = some (pyStrip (stripMarkers raw)) ∧
    ∃ sess', (chat_voice req st o).store.find? req.session_id = some sess' ∧
      sess'.history = sess.history ++
        [Turn.mk Role.user o.transcript,
         Turn.mk Role.model (pyStrip (stripMarkers raw))] := by
  obtain ⟨sess₁, hs₁, hist₁⟩ := profile_step_find? o.fresh req.session_id
    req.user_name req.user_email (truthy req.user_name || truthy req.user_email)
    st sess hs
  have hp : parseReply o.jsonLoad raw o.transcript =
      Except.ok (PyJson.str o.transcript, PyJson.str (pyStrip (stripMarkers raw))) := by
    rw [hj]
    rfl
  have hc := chat_voice_commit req st o sess₁ raw _ _ hi hs₁ hl hp
  exact ⟨hc.1, _, hc.2, by simp [pyText, hist₁]⟩

/-- Witness for C3 (amended): a fenced non-JSON reply is stripped to its
inner text, committed as the model turn after the transcript, and handed
to TTS; the request is not failed at the parse step. -/
theorem c3_witness :
    pyStrip (stripMarkers "```json\nX\n```") = "X" ∧
    ((chat_voice { session_id := "s", user_name := none, user_email := none }
        [("s", { history := [], name := none, email := none, created_at := "c" })]
        { ingest := IngestOutcome.ok, transcript := "hello", llm := Except.ok "```json\nX\n```",
          jsonLoad := none, tts := Except.ok (), apologyTts := Except.ok (),
          outName := "o.mp3", apologyPath := "a.mp3", fresh := "f" }).eff.ttsInput =
      some (pyStrip (stripMarkers "```json\nX\n```")) ∧
      ∃ sess',
        (chat_voice { session_id := "s", user_name := none, user_email := none }
          [("s", { history := [], name := none, email := none, created_at := "c" })]
          { ingest := IngestOutcome.ok, transcript := "hello", llm := Except.ok "```json\nX\n```",
            jsonLoad := none, tts := Except.ok (), apologyTts := Except.ok (),
            outName := "o.mp3", apologyPath := "a.mp3", fresh := "f" }).store.find? "s" =
          some sess' ∧
        sess'.history = [] ++
          [Turn.mk Role.user "hello",
           Turn.mk Role.model (pyStrip (stripMarkers "```json\nX\n```"))]) := by
  refine ⟨by decide, ?_⟩
  exact c3_decode_failure_uses_fallback
    { session_id := "s", user_name := none, user_email := none }
    [("s", { history := [], name := none, email := none, created_at := "c" })]
    { ingest := IngestOutcome.ok, transcript := "hello", llm := Except.ok "```json\nX\n```",
      jsonLoad := none, tts := Except.ok (), apologyTts := Except.ok (),
      outName := "o.mp3", apologyPath := "a.mp3", fresh := "f" }
    { history := [], name := none, email := none, created_at := "c" }
    "```json\nX\n```" (by decide) rfl rfl rfl

/-- C6: when the reply parses as the `StructuredReply` shape (a JSON
object carrying string fields `user_summary` and `response_text`), the
pipeline appends the pair `(user_summary, response_text)` — the summary,
not the raw transcript — as the user/model turn pair to the session
history, and hands `response_text` verbatim to speech synthesis. -/
theorem c6_structured_reply_commit (req : Request) (st : Store) (o : Oracles)
    (sess : Session) (raw : String) (fields : List (String × PyJson)) (a b : String)
    (hs : st.find? req.session_id = some sess)
    (hi : o.ingest = IngestOutcome.ok)
    (hl : o.llm = Except.ok raw)
    (hj : o.jsonLoad = some (PyJson.obj fields))
    (hu : dictGet fields "user_summary" = some (PyJson.str a))
    (hr : dictGet fields "response_text" = some (PyJson.str b)) :
    (chat_voice req st o).eff.ttsInput = some b ∧
    ∃ sess', (chat_voice req st o).store.find? req.session_id = some sess' ∧
      sess'.history = sess.history ++ [Turn.mk Role.user a, Turn.mk Role.model b] := by
  obtain ⟨sess₁, hs₁, hist₁⟩ := profile_step_find? o.fresh req.session_id
    req.user_name req.user_email (truthy req.user_name || truthy req.user_email)
    st sess hs
  have hp : parseReply o.jsonLoad raw o.transcript =
      Except.ok (PyJson.str a, PyJson.str b) := by
    rw [hj]
    simp [parseReply, hu, hr]
  have hc := chat_voice_commit req st o sess₁ raw _ _ hi hs₁ hl hp
  exact ⟨hc.1, _, hc.2, by simp [pyText, hist₁]⟩

/-- Witness for C6: the reply
`{"user_summary": "asked about X", "response_text": "I focus on Y"}`
leads to `("asked about X", "I focus on Y")` being appended to history
and `"I focus on Y"` being synthesized. -/
theorem c6_witness :
    dictGet [("user_summary", PyJson.str "asked about X"),
             ("response_text", PyJson.str "I focus on Y")] "user_summary" =
      some (PyJson.str "asked about X") ∧
    ((chat_voice { session_id := "s", user_name := none, user_email := none }
        [("s", { history := [], name := none, email := none, created_at := "c" })]
        { ingest := IngestOutcome.ok, transcript := "what do you do?", llm := Except.ok "raw",
          jsonLoad := some (PyJson.obj
            [("user_summary", PyJson.str "asked about X"),
             ("response_text", PyJson.str "I focus on Y")]),
          tts := Except.ok (), apologyTts := Except.ok (),
          outName := "o.mp3", apologyPath := "a.mp3", fresh := "f" }).eff.ttsInput =
      some "I focus on Y" ∧
      ∃ sess',
        (chat_voice { session_id := "s", user_name := none, user_email := none }
          [("s", { history := [], name := none, email := none, created_at := "c" })]
          { ingest := IngestOutcome.ok, transcript := "what do you do?", llm := Except.ok "raw",
            jsonLoad := some (PyJson.obj
              [("user_summary", PyJson.str "asked about X"),
               ("response_text", PyJson.str "I focus on Y")]),
            tts := Except.ok (), apologyTts := Except.ok (),
            outName := "o.mp3", apologyPath := "a.mp3", fresh := "f" }).store.find? "s" =
          some sess' ∧
        sess'.history = [] ++
          [Turn.mk Role.user "asked about X", Turn.mk Role.model "I focus on Y"]) := by
  refine ⟨rfl, ?_⟩
  exact c6_structured_reply_commit
    { session_id := "s", user_name := none, user_email := none }
    [("s", { history := [], name := none, email := none, created_at := "c" })]
    { ingest := IngestOutcome.ok, transcript := "what do you do?", llm := Except.ok "raw",
      jsonLoad := some (PyJson.obj
        [("user_summary", PyJson.str "asked about X"),
         ("response_text", PyJson.str "I focus on Y")]),
      tts := Except.ok (), apologyTts := Except.ok (),
      outName := "o.mp3", apologyPath := "a.mp3", fresh := "f" }
    { history := [], name := none, email := none, created_at := "c" }
    "raw"
    [("user_summary", PyJson.str "asked about X"),
     ("response_text", PyJson.str "I focus on Y")]
    "asked about X" "I focus on Y" (by decide) rfl rfl rfl rfl rfl

/-- Deletion behavior and result shape of the top-level `except` block:
`remove_file` runs exactly when the temp-file path was recorded, and any
returned response is the 200 apology audio. -/
theorem catchPath_claim_shape (o : Oracles) (st : Store) (pr : Bool) (eff : Effects) :
    (catchPath o st pr eff).eff.inputDeleted = (pr || eff.inputDeleted) ∧
    (o.apologyTts = Except.ok () →
      (catchPath o st pr eff).result =
        Except.ok { status := 200, mediaType := "audio/mpeg",
                    body := Body.audio o.apologyPath "error.mp3" }) ∧
    (∀ resp, (catchPath o st pr eff).result = Except.ok resp →
      resp.status = 200 ∧ resp.body.isAudio = true) :=
  ⟨catchPath_inputDeleted o st pr eff,
   (fun ha => catchPath_result_ok o st pr eff ha),
   (fun resp hr => catchPath_result_shape o st pr eff resp hr)⟩

/-- C1 (amended): whenever the top-level `except` block of `chat_voice`
runs (i.e. some exception was raised in pipeline steps 1-9), the input
temporary file is deleted if its path was recorded, that is, if the copy
of the upload into it had completed: with step 1 fully successful the
file is deleted, but in the execution where `NamedTemporaryFile` created
the file and `shutil.copyfileobj` then raised, the file exists on disk
and is *not* deleted — `temp_input_path` is still `None`, so the
`if temp_input_path:` guard skips `remove_file` and the file leaks;
when step 1 failed before creation no file exists.  Provided the apology
synthesis itself succeeds, the handler returns the apology audio file as
the body of an HTTP 200 response; and every response the handler returns
is a 200 audio response, never a structured error or a 5xx.  (If the
unguarded apology synthesis also fails, the exception propagates out of
the handler — see the counterexample.) -/
theorem c1_failure_returns_apology_audio (req : Request) (st : Store) (o : Oracles)
    (h : (chat_voice req st o).eff.caught = true) :
    (o.ingest = IngestOutcome.ok →
      (chat_voice req st o).eff.inputDeleted = true) ∧
    (o.ingest = IngestOutcome.failedAfterCreate →
      (chat_voice req st o).eff.inputCreated = true ∧
      (chat_voice req st o).eff.inputDeleted = false) ∧
    (o.ingest = IngestOutcome.failedBeforeCreate →
      (chat_voice req st o).eff.inputCreated = false) ∧
    (o.apologyTts = Except.ok () →
      (chat_voice req st o).result =
        Except.ok { status := 200, mediaType := "audio/mpeg",
                    body := Body.audio o.apologyPath "error.mp3" }) ∧
    (∀ resp, (chat_voice req st o).result = Except.ok resp →
      resp.status = 200 ∧ resp.body.isAudio = true) := by
  cases hi : o.ingest with
  | failedBeforeCreate =>
    simp only [chat_voice, hi]
    exact ⟨(fun hx => nomatch hx), (fun hx => nomatch hx),
      (fun _ => catchPath_inputCreated o st false emptyEffects),
      (catchPath_claim_shape o st false emptyEffects).2.1,
      (catchPath_claim_shape o st false emptyEffects).2.2⟩
  | failedAfterCreate =>
    simp only [chat_voice, hi]
    exact ⟨(fun hx => nomatch hx),
      (fun _ => ⟨catchPath_inputCreated o st false _,
        (catchPath_claim_shape o st false _).1⟩),
      (fun hx => nomatch hx),
      (catchPath_claim_shape o st false _).2.1,
      (catchPath_claim_shape o st false _).2.2⟩
  | ok =>
    cases hl : o.llm with
    | error e =>
      cases e
      simp only [chat_voice, hi, hl]
      exact ⟨(fun _ => (catchPath_claim_shape o _ true _).1),
        (fun hx => nomatch hx), (fun hx => nomatch hx),
        (catchPath_claim_shape o _ true _).2.1,
        (catchPath_claim_shape o _ true _).2.2⟩
    | ok raw =>
      cases hp : parseReply o.jsonLoad raw o.transcript with
      | error e =>
        cases e
        simp only [chat_voice, hi, hl, hp]
        exact ⟨(fun _ => (catchPath_claim_shape o _ true _).1),
          (fun hx => nomatch hx), (fun hx => nomatch hx),
          (catchPath_claim_shape o _ true _).2.1,
          (catchPath_claim_shape o _ true _).2.2⟩
      | ok usrt =>
        cases htts : o.tts with
        | error e =>
          cases e
          simp only [chat_voice, hi, hl, hp, htts]
          exact ⟨(fun _ => (catchPath_claim_shape o _ true _).1),
            (fun hx => nomatch hx), (fun hx => nomatch hx),
            (catchPath_claim_shape o _ true _).2.1,
            (catchPath_claim_shape o _ true _).2.2⟩
        | ok u2 =>
          cases u2
          simp only [chat_voice, hi, hl, hp, htts, emptyEffects] at h
          exact (Bool.false_ne_true h).elim

/-- C1 counterexample: the execution in which `NamedTemporaryFile`
creates the input temp file but `shutil.copyfileobj` then raises
(`temp_input_path` still `None`), and the apology synthesis also raises:
the `except` block runs, the created file is *not* deleted (the
`if temp_input_path:` guard skips `remove_file`), and the handler
returns no response at all — the second exception propagates and the
framework surfaces a 5xx.  This falsifies both the "deletes the input
temporary file if it was created" clause and the "returns an apology
audio file with HTTP status 200 and never a 5xx" clause of the claim as
stated. -/
theorem c1_counterexample :
    (chat_voice { session_id := "s", user_name := none, user_email := none } []
        { ingest := IngestOutcome.failedAfterCreate, transcript := "",
          llm := Except.error (), jsonLoad := none, tts := Except.error (),
          apologyTts := Except.error (), outName := "o.mp3",
          apologyPath := "a.mp3", fresh := "f" }).eff.caught = true ∧
    (chat_voice { session_id := "s", user_name := none, user_email := none } []
        { ingest := IngestOutcome.failedAfterCreate, transcript := "",
          llm := Except.error (), jsonLoad := none, tts := Except.error (),
          apologyTts := Except.error (), outName := "o.mp3",
          apologyPath := "a.mp3", fresh := "f" }).eff.inputCreated = true ∧
    (chat_voice { session_id := "s", user_name := none, user_email := none } []
        { ingest := IngestOutcome.failedAfterCreate, transcript := "",
          llm := Except.error (), jsonLoad := none, tts := Except.error (),
          apologyTts := Except.error (), outName := "o.mp3",
          apologyPath := "a.mp3", fresh := "f" }).eff.inputDeleted = false ∧
    (chat_voice { session_id := "s", user_name := none, user_email := none } []
        { ingest := IngestOutcome.failedAfterCreate, transcript := "",
          llm := Except.error (), jsonLoad := none, tts := Except.error (),
          apologyTts := Except.error (), outName := "o.mp3",
          apologyPath := "a.mp3", fresh := "f" }).result = Except.error () :=
  ⟨rfl, rfl, rfl, rfl⟩

/-- Witness for C1 (amended), at two concrete executions: a run whose
reasoning call fails after a fully successful step 1 (the `except` block
runs, the input file is deleted, the handler returns the 200 apology
clip), and a run whose step 1 fails after creating the file (the file is
created and not deleted). -/
theorem c1_witness :
    (chat_voice { session_id := "s", user_name := none, user_email := none } []
        { ingest := IngestOutcome.ok, transcript := "hi", llm := Except.error (),
          jsonLoad := none, tts := Except.ok (), apologyTts := Except.ok (),
          outName := "o.mp3", apologyPath := "a.mp3", fresh := "f" }).eff.caught = true ∧
    (chat_voice { session_id := "s", user_name := none, user_email := none } []
        { ingest := IngestOutcome.ok, transcript := "hi", llm := Except.error (),
          jsonLoad := none, tts := Except.ok (), apologyTts := Except.ok (),
          outName := "o.mp3", apologyPath := "a.mp3", fresh := "f" }).eff.inputDeleted =
      true ∧
    (chat_voice { session_id := "s", user_name := none, user_email := none } []
        { ingest := IngestOutcome.ok, transcript := "hi", llm := Except.error (),
          jsonLoad := none, tts := Except.ok (), apologyTts := Except.ok (),
          outName := "o.mp3", apologyPath := "a.mp3", fresh := "f" }).result =
      Except.ok { status := 200, mediaType := "audio/mpeg",
                  body := Body.audio "a.mp3" "error.mp3" } ∧
    (chat_voice { session_id := "s", user_name := none, user_email := none } []
        { ingest := IngestOutcome.failedAfterCreate, transcript := "hi",
          llm := Except.error (), jsonLoad := none, tts := Except.ok (),
          apologyTts := Except.ok (), outName := "o.mp3", apologyPath := "a.mp3",
          fresh := "f" }).eff.caught = true ∧
    ((chat_voice { session_id := "s", user_name := none, user_email := none } []
        { ingest := IngestOutcome.failedAfterCreate, transcript := "hi",
          llm := Except.error (), jsonLoad := none, tts := Except.ok (),
          apologyTts := Except.ok (), outName := "o.mp3", apologyPath := "a.mp3",
          fresh := "f" }).eff.inputCreated = true ∧
      (chat_voice { session_id := "s", user_name := none, user_email := none } []
        { ingest := IngestOutcome.failedAfterCreate, transcript := "hi",
          llm := Except.error (), jsonLoad := none, tts := Except.ok (),
          apologyTts := Except.ok (), outName := "o.mp3", apologyPath := "a.mp3",
          fresh := "f" }).eff.inputDeleted = false) :=
  ⟨rfl,
   (c1_failure_returns_apology_audio
      { session_id := "s", user_name := none, user_email := none } []
      { ingest := IngestOutcome.ok, transcript := "hi", llm := Except.error (),
        jsonLoad := none, tts := Except.ok (), apologyTts := Except.ok (),
        outName := "o.mp3", apologyPath := "a.mp3", fresh := "f" } rfl).1 rfl,
   (c1_failure_returns_apology_audio
      { session_id := "s", user_name := none, user_email := none } []
      { ingest := IngestOutcome.ok, transcript := "hi", llm := Except.error (),
        jsonLoad := none, tts := Except.ok (), apologyTts := Except.ok (),
        outName := "o.mp3", apologyPath := "a.mp3", fresh := "f" } rfl).2.2.2.1 rfl,
   rfl,
   (c1_failure_returns_apology_audio
      { session_id := "s", user_name := none, user_email := none } []
      { ingest := IngestOutcome.failedAfterCreate, transcript := "hi",
        llm := Except.error (), jsonLoad := none, tts := Except.ok (),
        apologyTts := Except.ok (), outName := "o.mp3", apologyPath := "a.mp3",
        fresh := "f" } rfl).2.1 rfl⟩

end VoiceBot
